import Mathlib

/-!
Verification of the synchronization and download orchestration engine of the
youtube-playlist-downloader repository, against its natural-language
specification.  The definitions below are a shallow embedding of
`src/app/database.py`, `src/app/downloader.py`, `src/app/playlist_monitor.py`
and `src/app/main.py`: the SQLite `videos` table becomes a list of rows,
Python dicts become association lists or option-field records, exceptions
become explicit outcome values, and the filesystem becomes the list of paths
that currently exist on disk.
-/

namespace YPD

/-- A row of the `videos` table (schema in `DatabaseManager.init_database`,
database.py lines 27-44).  `file_path` and `file_hash` use `""` for both SQL
NULL and the empty string, matching how the Python code tests them for
truthiness.  The `metadata` JSON object is an association list. -/
structure Video where
  video_id : String
  title : String
  uploader : String
  duration : Int
  upload_date : String
  playlist_id : Nat
  file_path : String
  metadata : List (String × String)
  file_hash : String
  file_size : Nat
  status : String
deriving Repr, DecidableEq

/-- The catalog store: the rows of the `videos` table in insertion order. -/
abbrev DB := List Video

/-- The CHECK constraint on `videos.status` (database.py line 41):
`CHECK(status IN ('pending', 'processing', 'downloaded', 'failed', 'duplicate'))`.
A write with any other status value is rejected by SQLite. -/
def validStatus (s : String) : Bool :=
  s == "pending" || s == "processing" || s == "downloaded" ||
  s == "failed" || s == "duplicate"

/-- `DatabaseManager.video_exists` (database.py lines 93-100): true iff a row
with this id has status downloaded or duplicate. -/
def video_exists (db : DB) (vid : String) : Bool :=
  db.any (fun v => v.video_id == vid &&
    (v.status == "downloaded" || v.status == "duplicate"))

/-- `DatabaseManager.video_in_database` (database.py lines 102-109). -/
def video_in_database (db : DB) (vid : String) : Bool :=
  db.any (fun v => v.video_id == vid)

/-- `DatabaseManager.get_pending_videos` scoped to one playlist
(database.py lines 111-129): rows with status pending for the playlist,
in ascending id (= insertion) order. -/
def get_pending_videos (db : DB) (pid : Nat) : List Video :=
  db.filter (fun v => v.status == "pending" && v.playlist_id == pid)

/-- `DatabaseManager.get_file_by_hash` (database.py lines 354-365):
`SELECT * FROM videos WHERE file_hash = ? AND file_hash != ""` after the
early return on a falsy argument.  Note that the query does NOT constrain
`status`: any row carrying the hash matches. -/
def get_file_by_hash (db : DB) (h : String) : Option Video :=
  if h == "" then none
  else db.find? (fun v => v.file_hash == h && v.file_hash != "")

/-- `DatabaseManager.update_video_status` (database.py lines 246-253):
`UPDATE videos SET status = ? WHERE video_id = ?`. -/
def update_video_status (db : DB) (vid s : String) : DB :=
  db.map (fun v => if v.video_id == vid then { v with status := s } else v)

/-- `DatabaseManager.reset_processing_to_pending` (database.py lines 426-435):
`UPDATE videos SET status = "pending" WHERE status = "processing"`.
Defined in the store API "for cleanup on startup", but no caller exists
anywhere in the repository. -/
def reset_processing_to_pending (db : DB) : DB :=
  db.map (fun v =>
    if v.status == "processing" then { v with status := "pending" } else v)

/-- `DatabaseManager.mark_videos_as_processing` (database.py lines 412-424):
`UPDATE videos SET status = "processing" WHERE video_id IN (...) AND
status = "pending"`.  Defined in the store API but never called by the
drain routine or anything else in the repository. -/
def mark_videos_as_processing (db : DB) (vids : List String) : DB :=
  db.map (fun v =>
    if vids.contains v.video_id && v.status == "pending" then
      { v with status := "processing" } else v)

/-- The `video_data` dict handed to `PlaylistMonitor._update_video_status`:
each key may be absent, and the Python code supplies a per-key default via
`dict.get`. -/
structure VideoData where
  title : Option String
  uploader : Option String
  duration : Option Int
  upload_date : Option String
  file_path : Option String
  metadata : Option (List (String × String))
  file_hash : Option String
  file_size : Option Nat
  status : Option String
deriving Repr, DecidableEq

/-- The dict `\x7b'status': s\x7d` used on the drain failure path
(playlist_monitor.py line 324). -/
def VideoData.statusOnly (s : String) : VideoData :=
  ⟨none, none, none, none, none, none, none, none, some s⟩

/-- The SET clause of `PlaylistMonitor._update_video_status` applied to one
row: every column is overwritten from the dict, with the `dict.get` defaults
substituted for absent keys. -/
def apply_video_data (d : VideoData) (v : Video) : Video :=
  { v with
    title := d.title.getD ""
    uploader := d.uploader.getD ""
    duration := d.duration.getD 0
    upload_date := d.upload_date.getD ""
    file_path := d.file_path.getD ""
    metadata := d.metadata.getD []
    file_hash := d.file_hash.getD ""
    file_size := d.file_size.getD 0
    status := d.status.getD "downloaded" }

/-- `PlaylistMonitor._update_video_status` (playlist_monitor.py lines
358-378): overwrites EVERY column of the matching row from the dict — in
particular `metadata` becomes `video_data.get('metadata', \x7b\x7d)` and
`status` becomes `video_data.get('status', 'downloaded')`. -/
def monitor_update_video_status (db : DB) (vid : String) (d : VideoData) : DB :=
  db.map (fun v => if v.video_id == vid then apply_video_data d v else v)

/-- Status of the row found by `SELECT status FROM videos WHERE video_id = ?`
(first matching row), `""` when the row is absent. -/
def currentStatus (db : DB) (vid : String) : String :=
  match db.find? (fun v => v.video_id == vid) with
  | some v => v.status
  | none => ""

/-! ## Download provider (`downloader.py`) -/

/-- The availability values treated as auth-restricted
(downloader.py line 402, also line 195). -/
def restricted_availabilities : List String :=
  ["private", "subscriber_only", "premium_only", "needs_auth"]

/-- The `tech_info` yt-dlp returns for the availability pre-check in
`_perform_download_with_correct_metadata`; `availability` is `none` when the
key is absent (the code substitutes `'public'`). -/
structure TechInfo where
  availability : Option String
  upload_date : String
  duration : Int
  description : String
deriving Repr, DecidableEq

/-- The artifact found on disk after the yt-dlp download step: actual path,
content hash and size.  `none` models the file not being found afterwards. -/
structure FetchedFile where
  path : String
  hash : String
  size : Nat
deriving Repr, DecidableEq

/-- The dict returned by `YouTubeDownloader.download_video` on success
(downloader.py lines 459-476). -/
structure DownloadResult where
  video_id : String
  title : String
  uploader : String
  duration : Int
  upload_date : String
  file_path : String
  file_hash : String
  file_size : Nat
  status : String
  metadata : List (String × String)
deriving Repr, DecidableEq

/-- `YouTubeDownloader._perform_download_with_correct_metadata`
(downloader.py lines 388-480).  `tech = none`: yt-dlp yielded no technical
info (line 397 returns None).  A restricted availability returns None with no
file retained (lines 401-404).  `fetched = none`: no file found after the
download (line 430 returns None).  Otherwise the result dict is built with
`status = 'downloaded'` (line 468); there is no other status value on any
path, and an exception anywhere is caught and turned into None (line 478). -/
def perform_download_with_correct_metadata
    (tech : Option TechInfo) (fetched : Option FetchedFile)
    (video_id title uploader album : String) (year : Option String) :
    Option DownloadResult :=
  match tech with
  | none => none
  | some t =>
    if restricted_availabilities.contains (t.availability.getD "public") then
      none
    else
      match fetched with
      | none => none
      | some f =>
        some
          { video_id := video_id
            title := title
            uploader := uploader
            duration := t.duration
            upload_date := t.upload_date
            file_path := f.path
            file_hash := f.hash
            file_size := f.size
            status := "downloaded"
            metadata :=
              [("description", t.description),
               ("album", album),
               ("year", year.getD ""),
               ("localization", "HK_dual_source_complete_fixed")] }

/-! ## Orchestrator flags and the manual trigger (`playlist_monitor.py`) -/

/-- The two coordination booleans of `PlaylistMonitor.__init__`
(playlist_monitor.py lines 20-23): `_is_checking` guarded by `_check_lock`
and `_is_initial_checking` guarded by `_initial_check_lock`. -/
structure MonitorFlags where
  is_checking : Bool
  is_initial_checking : Bool
deriving Repr, DecidableEq

/-- The response dict of `PlaylistMonitor.trigger_manual_check`; `status` is
one of "already_running", "completed", "failed". -/
structure TriggerResult where
  success : Bool
  status : String
deriving Repr, DecidableEq

/-- `PlaylistMonitor.trigger_manual_check` (playlist_monitor.py lines 60-88).
`run` abstracts `check_all_playlists`: from the catalog it produces the
mutated catalog, the new-video count, and `some msg` when it raised an
exception (in which case its partial catalog mutations persist).  The guard
at line 63 tests ONLY `_is_checking`; `_is_initial_checking` is not
consulted.  The `finally` block (lines 86-88) clears `_is_checking` on the
normal and the exception exit alike. -/
def trigger_manual_check (fl : MonitorFlags) (db : DB)
    (run : DB → DB × Nat × Option String) :
    TriggerResult × MonitorFlags × DB :=
  if fl.is_checking then
    (⟨false, "already_running"⟩, fl, db)
  else
    let fl1 : MonitorFlags := { fl with is_checking := true }
    let r := run db
    match r.2.2 with
    | none => (⟨true, "completed"⟩, { fl1 with is_checking := false }, r.1)
    | some _ => (⟨false, "failed"⟩, { fl1 with is_checking := false }, r.1)

/-! ## Startup (`main.py`) -/

/-- A row of the `playlists` table, the fields `startup_event` reads. -/
structure Playlist where
  id : Nat
  url : String
  name : String
  active : Bool
deriving Repr, DecidableEq

/-- `DatabaseManager.get_active_playlists` (main.py lines 98-105). -/
def get_active_playlists (pls : List Playlist) : List Playlist :=
  pls.filter (fun p => p.active)

/-- The in-memory `app_status` fields touched by startup. -/
structure AppStatus where
  monitoring : Bool
  total_playlists : Nat
deriving Repr, DecidableEq

/-- `startup_event` (main.py lines 597-605): reads the active playlists,
records their count, starts the monitor thread.  It performs no catalog
mutation whatsoever — in particular it never calls
`reset_processing_to_pending` (no code in the repository does). -/
def startup_event (pls : List Playlist) (db : DB) (st : AppStatus) :
    AppStatus × DB :=
  ({ st with
      monitoring := true
      total_playlists := (get_active_playlists pls).length },
   db)

/-! ## The pending drain of `PlaylistMonitor.check_playlist`
(playlist_monitor.py lines 313-356) -/

/-- The `video_data` dict built from a full download result, every key
present (so every `dict.get` default is unused). -/
def VideoData.ofResult (r : DownloadResult) : VideoData :=
  ⟨some r.title, some r.uploader, some r.duration, some r.upload_date,
   some r.file_path, some r.metadata, some r.file_hash, some r.file_size,
   some r.status⟩

/-- Outcome of one `downloader.download_video` call as observed by the drain
loop: either the call returned (possibly `None`), or an exception escaped
while this track was being processed. -/
inductive DrainOutcome where
  | result (r : Option DownloadResult)
  | raised (msg : String)
deriving Repr

/-- State threaded through the drain loop: the catalog, the set of paths
existing on disk, the running `new_videos` counter, the append-only
`download_history` rows written by `log_download_action`, and a ghost
`trace` recording, for each provider invocation, the track id together with
its stored status at the moment `download_video` is called (a pure
observation; it influences nothing). -/
structure DrainState where
  db : DB
  disk : List String
  new_videos : Nat
  history : List (String × String)
  trace : List (String × String)
deriving Repr

/-- One iteration of the pending loop (playlist_monitor.py lines 317-348)
for the track `vid`.  Returns the new state and `some msg` when an exception
escaped (aborting the loop).  Faithful order of effects: provider call; on
`None`, mark the track failed and continue (line 324); otherwise dedup by
hash against the CURRENT catalog (lines 328-335: delete the new file if it
exists on disk, set status duplicate and file_path to the matched row's
path), then write the whole dict over the row (line 338), log (line 340),
and count a download iff the final status is "downloaded" (line 347). -/
def drain_step (provider : String → DrainOutcome) (s : DrainState)
    (vid : String) : DrainState × Option String :=
  let s := { s with trace := s.trace ++ [(vid, currentStatus s.db vid)] }
  match provider vid with
  | .raised msg => (s, some msg)
  | .result none =>
    ({ s with
        db := monitor_update_video_status s.db vid
                (VideoData.statusOnly "failed") },
     none)
  | .result (some r0) =>
    let rd :=
      if r0.file_hash != "" then
        match get_file_by_hash s.db r0.file_hash with
        | some owner =>
          let disk1 :=
            if r0.file_path != "" && s.disk.contains r0.file_path then
              s.disk.filter (fun p => p != r0.file_path)
            else s.disk
          ({ r0 with status := "duplicate", file_path := owner.file_path },
           disk1)
        | none => (r0, s.disk)
      else (r0, s.disk)
    let r := rd.1
    ({ s with
        db := monitor_update_video_status s.db vid (VideoData.ofResult r)
        disk := rd.2
        history := s.history ++ [(vid, r.status)]
        new_videos :=
          if r.status == "downloaded" then s.new_videos + 1
          else s.new_videos },
     none)

/-- The pending loop itself: iterate `drain_step`; an escaped exception stops
the iteration (the mutations performed so far persist, the remaining tracks
are never processed). -/
def drain_pending (provider : String → DrainOutcome) :
    DrainState → List String → DrainState × Option String
  | s, [] => (s, none)
  | s, vid :: rest =>
    match drain_step provider s vid with
    | (s1, some msg) => (s1, some msg)
    | (s1, none) => drain_pending provider s1 rest

/-- The pending-drain phase of `check_playlist` including its enclosing
try/except (lines 245 and 354-356): list the pending tracks of the playlist,
run the loop, and on an escaped exception report 0 new videos — while the
catalog mutations committed before the exception persist. -/
def check_playlist_drain (db : DB) (disk : List String) (pid : Nat)
    (provider : String → DrainOutcome) : DrainState × Nat :=
  let pend := (get_pending_videos db pid).map (fun v => v.video_id)
  let r := drain_pending provider ⟨db, disk, 0, [], []⟩ pend
  match r.2 with
  | some _ => (r.1, 0)
  | none => (r.1, r.1.new_videos)

/-- The on-disk revalidation applied to an already-stored track during a
scan (`check_playlist`, playlist_monitor.py lines 263-275) and identically
during an initial check (`perform_initial_playlist_check`, lines 132-146):
`SELECT file_path FROM videos WHERE video_id = ? AND status IN
("downloaded", "duplicate")`; if a row with a truthy path is found and the
path does not exist on disk, `UPDATE videos SET status = "pending"` — and
nothing else: `file_hash`, `file_size` and `file_path` are left as they
were. -/
def revalidate_on_disk (db : DB) (disk : List String) (vid : String) : DB :=
  match db.find? (fun v => v.video_id == vid &&
      (v.status == "downloaded" || v.status == "duplicate")) with
  | some row =>
    if row.file_path != "" then
      if !(disk.contains row.file_path) then
        update_video_status db vid "pending"
      else db
    else db
  | none => db

/-! ## Metadata merging -/

/-- Python dict union `\x7b**old, **new\x7d` on JSON objects as association
lists: keys of `old` keep their position with the value overridden by `new`
where present, then keys only in `new` follow in order. -/
def dictMerge (old new : List (String × String)) :
    List (String × String) :=
  old.map (fun p =>
    match new.find? (fun q => q.1 == p.1) with
    | some q => (p.1, q.2)
    | none => p)
  ++ new.filter (fun q => !(old.any (fun p => p.1 == q.1)))

/-- The metadata-preserving read-merge of
`PlaylistMonitor.perform_initial_playlist_check` STEP 4 (playlist_monitor.py
lines 205-221): read the stored metadata of the row and set the download
result's metadata to `\x7b**existing, **download\x7d`; when the row is
absent the result is left as is. -/
def merge_download_metadata (db : DB) (vid : String) (r : DownloadResult) :
    DownloadResult :=
  match db.find? (fun v => v.video_id == vid) with
  | some row => { r with metadata := dictMerge row.metadata r.metadata }
  | none => r

/-- `DatabaseManager.upsert_videos_batch` for a single row (database.py
lines 161-193).  The INSERT lists video_id, title, uploader, duration,
upload_date, playlist_id, metadata, status (file columns default to NULL,
modeled as the `""`/`[]`/0 defaults of the `new` argument).  On conflict:
title and uploader via COALESCE with the always-non-null excluded values,
`metadata = excluded.metadata` (a wholesale replacement), and status kept
when the existing row is downloaded, duplicate or processing. -/
def upsert_video (db : DB) (new : Video) : DB :=
  if db.any (fun v => v.video_id == new.video_id) then
    db.map (fun v =>
      if v.video_id == new.video_id then
        { v with
          title := new.title
          uploader := new.uploader
          metadata := new.metadata
          status :=
            if v.status == "downloaded" || v.status == "duplicate" ||
               v.status == "processing" then v.status
            else new.status }
      else v)
  else db ++ [new]

/-- `DatabaseManager.upsert_videos_batch` over the whole batch
(`cursor.executemany`, database.py line 190). -/
def upsert_videos_batch (db : DB) (vids : List Video) : DB :=
  vids.foldl upsert_video db

/-! ## Dual-source reconciliation
(`YouTubeDownloader.get_playlist_dual_source_complete`,
downloader.py lines 62-164) -/

/-- A playlist entry as produced by either metadata provider. -/
structure PEntry where
  id : String
  title : String
  uploader : String
  source : String
deriving Repr, DecidableEq

/-- Insertion-ordered map update `m[k] = v` on an association list, the
semantics of assignment into a Python dict. -/
def insertAssoc (m : List (String × PEntry)) (k : String) (v : PEntry) :
    List (String × PEntry) :=
  if m.any (fun p => p.1 == k) then
    m.map (fun p => if p.1 == k then (k, v) else p)
  else m ++ [(k, v)]

/-- Building `ytmusic_tracks` / `ytdlp_tracks`: `tracks[t['id']] = t` for
every entry with a truthy id (downloader.py lines 74-76 and 89-91). -/
def buildTrackMap (entries : List PEntry) : List (String × PEntry) :=
  entries.foldl
    (fun m t => if t.id != "" then insertAssoc m t.id t else m) []

/-- Lookup in an association list (Python `d[k]` / `k in d`). -/
def lookupAssoc (m : List (String × PEntry)) (k : String) : Option PEntry :=
  match m.find? (fun p => p.1 == k) with
  | some p => some p.2
  | none => none

/-- `YouTubeDownloader.get_playlist_dual_source_complete`
(downloader.py lines 62-164), entry-set part.
`ytmusic = none` models `get_playlist_info_batch` raising (caught at line
78, leaving the map empty); `ytdlp` is the entry list of
`_get_playlist_with_ytdlp`, which is `[]` when that provider failed (its
own except clause at lines 225-227 returns an empty entry list).
`get_song` abstracts the STEP-5 single-track `ytmusic.get_song` enrichment:
`none` when the call failed or yielded no videoDetails.  STEP 6 falls back
to the yt-dlp entry for ids whose enrichment failed.  The function ALWAYS
returns an entry list — it has no failure path, even when both providers
produced nothing.  (CPython iterates the `missing` set in unspecified
order; we fix yt-dlp insertion order.) -/
def get_playlist_dual_source_complete (ytmusic : Option (List PEntry))
    (ytdlp : List PEntry) (get_song : String → Option PEntry) :
    List PEntry :=
  let ytmusic_tracks := buildTrackMap (ytmusic.getD [])
  let ytdlp_tracks := buildTrackMap ytdlp
  let missing := (ytdlp_tracks.map (fun p => p.1)).filter
    (fun i => !(ytmusic_tracks.any (fun p => p.1 == i)))
  let step5 := missing.map (fun i => (i, get_song i))
  let enriched1 := step5.filterMap (fun p =>
    match p.2 with
    | some e => some (p.1, e)
    | none => none)
  let failed := step5.filterMap (fun p =>
    match p.2 with
    | some _ => none
    | none => some p.1)
  let enriched := failed.foldl (fun acc i =>
    match lookupAssoc ytdlp_tracks i with
    | some e => insertAssoc acc i e
    | none => acc) enriched1
  let all := enriched.foldl (fun m p => insertAssoc m p.1 p.2)
    ytmusic_tracks
  all.map (fun p => p.2)

/-! ## Supporting lemmas -/

/-- The row rewrite keeps the key column. -/
theorem apply_video_data_video_id (d : VideoData) (v : Video) :
    (apply_video_data d v).video_id = v.video_id := rfl

/-- The row rewrite sets the metadata column to the incoming blob (empty
when the dict has no metadata key), regardless of the old blob. -/
theorem apply_video_data_metadata (d : VideoData) (v : Video) :
    (apply_video_data d v).metadata = d.metadata.getD [] := rfl

/-- An update keyed on one `video_id` does not change the status the store
reports for any other id. -/
theorem currentStatus_monitor_update_other (db : DB) (vid vid2 : String)
    (d : VideoData) (h : vid2 ≠ vid) :
    currentStatus (monitor_update_video_status db vid d) vid2
      = currentStatus db vid2 := by
  unfold currentStatus monitor_update_video_status
  rw [List.find?_map]
  have hp : ((fun v : Video => v.video_id == vid2) ∘ fun v : Video =>
      if v.video_id == vid then apply_video_data d v else v)
      = fun v : Video => v.video_id == vid2 := by
    funext v
    by_cases hv : (v.video_id == vid) = true <;>
      simp [Function.comp, hv, apply_video_data_video_id]
  rw [hp]
  cases hfind : db.find? (fun v => v.video_id == vid2) with
  | none => rfl
  | some v =>
    have hvv : v.video_id = vid2 := by simpa using List.find?_some hfind
    have hne : (v.video_id == vid) = false := by
      simp only [beq_eq_false_iff_ne, ne_eq, hvv]
      exact h
    simp only [Option.map_some', hne, Bool.false_eq_true, if_false]

/-- With globally unique video ids, looking a member row up by its id finds
exactly that row. -/
theorem find?_eq_of_mem_nodup (db : DB) (v : Video)
    (hnd : (db.map (fun w => w.video_id)).Nodup) (hv : v ∈ db) :
    db.find? (fun w => w.video_id == v.video_id) = some v := by
  induction db with
  | nil => cases hv
  | cons w rest ih =>
    simp only [List.map_cons, List.nodup_cons] at hnd
    rcases List.mem_cons.1 hv with rfl | hmem
    · simp [List.find?_cons]
    · have hne : w.video_id ≠ v.video_id := by
        intro he
        exact hnd.1 (he ▸ List.mem_map_of_mem (fun x => x.video_id) hmem)
      simp only [List.find?_cons]
      have hbeq : (w.video_id == v.video_id) = false := by simp [hne]
      simp only [hbeq]
      exact ih hnd.2 hmem

/-- The keys of the old blob all survive a Python dict union
`\x7b**old, **new\x7d`. -/
theorem dictMerge_keys_left (a b : List (String × String)) (k : String)
    (hk : k ∈ a.map Prod.fst) : k ∈ (dictMerge a b).map Prod.fst := by
  rcases List.mem_map.1 hk with ⟨p, hp, rfl⟩
  unfold dictMerge
  rw [List.map_append]
  apply List.mem_append_left
  apply List.mem_map.2
  refine ⟨(match b.find? (fun q => q.1 == p.1) with
           | some q => (p.1, q.2)
           | none => p), List.mem_map_of_mem _ hp, ?_⟩
  cases hb : b.find? (fun q => q.1 == p.1) <;> simp [hb]

/-- Every branch of `drain_step` first records the invocation observation:
the track id paired with its stored status at the moment the provider is
called. -/
theorem drain_step_trace (provider : String → DrainOutcome) (s : DrainState)
    (vid : String) :
    (drain_step provider s vid).1.trace
      = s.trace ++ [(vid, currentStatus s.db vid)] := by
  cases hpr : provider vid with
  | raised msg => simp [drain_step, hpr]
  | result r =>
    cases r with
    | none => simp [drain_step, hpr]
    | some r0 => simp [drain_step, hpr]

/-- One drain iteration for track `vid` never changes the stored status of
any other track. -/
theorem currentStatus_drain_step_other (provider : String → DrainOutcome)
    (s : DrainState) (vid vid2 : String) (h : vid2 ≠ vid) :
    currentStatus (drain_step provider s vid).1.db vid2
      = currentStatus s.db vid2 := by
  cases hpr : provider vid with
  | raised msg => simp [drain_step, hpr]
  | result r =>
    cases r with
    | none =>
      simp only [drain_step, hpr]
      exact currentStatus_monitor_update_other _ _ _ _ h
    | some r0 =>
      simp only [drain_step, hpr]
      exact currentStatus_monitor_update_other _ _ _ _ h

/-- Loop invariant of the pending drain: as long as the listed tracks are
pairwise distinct and all still stored as `pending` when the loop starts,
every observation the loop records pairs a track with stored status
`pending` (or was already on the incoming trace). -/
theorem drain_pending_trace_mem (provider : String → DrainOutcome) :
    ∀ (pend : List String) (s : DrainState),
    pend.Nodup →
    (∀ vid ∈ pend, currentStatus s.db vid = "pending") →
    ∀ e ∈ (drain_pending provider s pend).1.trace,
      e ∈ s.trace ∨ e.2 = "pending"
  | [], s, _, _, e, he => Or.inl he
  | vid :: rest, s, hnd, hpend, e, he => by
    have hstat : currentStatus s.db vid = "pending" :=
      hpend vid (List.mem_cons_self vid rest)
    have hnd' := List.nodup_cons.1 hnd
    rcases hds : drain_step provider s vid with ⟨s1, exn⟩
    have htr : s1.trace = s.trace ++ [(vid, "pending")] := by
      have h1 := drain_step_trace provider s vid
      rw [hds, hstat] at h1
      exact h1
    have hother : ∀ vid2, vid2 ≠ vid →
        currentStatus s1.db vid2 = currentStatus s.db vid2 := by
      intro vid2 h2
      have h3 := currentStatus_drain_step_other provider s vid vid2 h2
      rw [hds] at h3
      exact h3
    have hmemtr : ∀ e2, e2 ∈ s1.trace → e2 ∈ s.trace ∨ e2.2 = "pending" := by
      intro e2 he2
      rw [htr] at he2
      rcases List.mem_append.1 he2 with h4 | h4
      · exact Or.inl h4
      · right
        have h5 : e2 = (vid, "pending") := by simpa using h4
        rw [h5]
    rw [drain_pending, hds] at he
    cases exn with
    | some msg =>
      exact hmemtr e he
    | none =>
      have hrest := drain_pending_trace_mem provider rest s1 hnd'.2
        (fun vid2 h6 => by
          have h7 : vid2 ≠ vid := fun h8 => hnd'.1 (h8 ▸ h6)
          rw [hother vid2 h7]
          exact hpend vid2 (List.mem_cons_of_mem vid h6))
        e he
      rcases hrest with h9 | h9
      · exact hmemtr e h9
      · exact Or.inr h9

/-- `check_playlist_drain` returns the final loop state whether or not an
exception escaped (only the reported count differs). -/
theorem check_playlist_drain_fst (db : DB) (disk : List String) (pid : Nat)
    (provider : String → DrainOutcome) :
    (check_playlist_drain db disk pid provider).1
      = (drain_pending provider ⟨db, disk, 0, [], []⟩
          ((get_pending_videos db pid).map (fun v => v.video_id))).1 := by
  unfold check_playlist_drain
  cases h2 : (drain_pending provider ⟨db, disk, 0, [], []⟩
      ((get_pending_videos db pid).map (fun v => v.video_id))).2 <;>
    simp [h2]

/-! ## Claim theorems -/

/-- C1 counterexample: with the initial-checking flag set (a bulk import in
progress) but the checking flag clear, `trigger_manual_check` does NOT
return an already-running rejection — it proceeds and reports a completed
check, because the guard reads only `_is_checking`.  The claim as stated
(rejection whenever either flag is set) is therefore false. -/
theorem trigger_manual_check_not_rejected_during_bulk_import :
    (trigger_manual_check ⟨false, true⟩ []
        (fun db => (db, 0, none))).1.status = "completed"
    ∧ (trigger_manual_check ⟨false, true⟩ []
        (fun db => (db, 0, none))).1.status ≠ "already_running" := by
  constructor
  · rfl
  · decide

/-- C1 (amended): whenever the CHECKING flag is set, the manual trigger
returns the already-running rejection immediately, does not queue, and
leaves the catalog store and the coordination flags untouched.  (The
initial-checking flag does not gate the manual trigger.) -/
theorem trigger_manual_check_rejected_when_checking (fl : MonitorFlags)
    (db : DB) (run : DB → DB × Nat × Option String)
    (h : fl.is_checking = true) :
    trigger_manual_check fl db run = (⟨false, "already_running"⟩, fl, db) := by
  simp [trigger_manual_check, h]

/-- Witness for `trigger_manual_check_rejected_when_checking` at a concrete
busy state. -/
theorem trigger_manual_check_rejected_when_checking_witness :
    (⟨true, false⟩ : MonitorFlags).is_checking = true
    ∧ trigger_manual_check ⟨true, false⟩ []
        (fun db => (db, 0, none))
      = (⟨false, "already_running"⟩, ⟨true, false⟩, []) :=
  ⟨rfl, trigger_manual_check_rejected_when_checking ⟨true, false⟩ []
    (fun db => (db, 0, none)) rfl⟩

/-- C10: the manual trigger clears the in-memory checking flag on every exit
path — normal completion and caught exception alike — so a subsequent
manual trigger is never rejected because of a stale flag. -/
theorem trigger_manual_check_clears_flag (fl : MonitorFlags) (db : DB)
    (run : DB → DB × Nat × Option String) (h : fl.is_checking = false) :
    ((trigger_manual_check fl db run).2.1).is_checking = false
    ∧ ∀ (db2 : DB) (run2 : DB → DB × Nat × Option String),
        (trigger_manual_check (trigger_manual_check fl db run).2.1 db2
          run2).1.status ≠ "already_running" := by
  have haccept : ∀ (fl2 : MonitorFlags), fl2.is_checking = false →
      ∀ (db2 : DB) (run2 : DB → DB × Nat × Option String),
      (trigger_manual_check fl2 db2 run2).1.status ≠ "already_running" := by
    intro fl2 h2 db2 run2
    unfold trigger_manual_check
    rw [h2]
    simp only [Bool.false_eq_true, if_false]
    cases hr : (run2 db2).2.2 <;> simp [hr]
  have hflag : ((trigger_manual_check fl db run).2.1).is_checking = false := by
    unfold trigger_manual_check
    rw [h]
    simp only [Bool.false_eq_true, if_false]
    cases hr : (run db).2.2 <;> simp [hr]
  exact ⟨hflag, fun db2 run2 => haccept _ hflag db2 run2⟩

/-- Witness for `trigger_manual_check_clears_flag`: an idle monitor whose
check raises still ends with the flag clear and the next trigger accepted. -/
theorem trigger_manual_check_clears_flag_witness :
    (⟨false, false⟩ : MonitorFlags).is_checking = false
    ∧ (((trigger_manual_check ⟨false, false⟩ []
          (fun db => (db, 0, some "boom"))).2.1).is_checking = false
       ∧ ∀ (db2 : DB) (run2 : DB → DB × Nat × Option String),
          (trigger_manual_check
            (trigger_manual_check ⟨false, false⟩ []
              (fun db => (db, 0, some "boom"))).2.1 db2 run2).1.status
            ≠ "already_running") :=
  ⟨rfl, trigger_manual_check_clears_flag ⟨false, false⟩ []
    (fun db => (db, 0, some "boom")) rfl⟩

/-- C2 (code bug evidence): at process start with a track left in
`processing`, the startup sequence (main.py `startup_event`) returns the
catalog byte-for-byte unchanged — the track is still `processing` when the
scheduler loop becomes reachable — whereas the store operation
`reset_processing_to_pending`, defined for exactly this cleanup, would have
reset it to `pending`.  No code in the repository ever calls that
operation. -/
theorem startup_leaves_processing_track :
    (startup_event []
        [⟨"v1", "T", "U", 0, "", 1, "", [], "", 0, "processing"⟩]
        ⟨false, 0⟩).2
      = [⟨"v1", "T", "U", 0, "", 1, "", [], "", 0, "processing"⟩]
    ∧ currentStatus
        (startup_event []
          [⟨"v1", "T", "U", 0, "", 1, "", [], "", 0, "processing"⟩]
          ⟨false, 0⟩).2 "v1" = "processing"
    ∧ currentStatus
        (reset_processing_to_pending
          [⟨"v1", "T", "U", 0, "", 1, "", [], "", 0, "processing"⟩]) "v1"
        = "pending" := by
  refine ⟨rfl, rfl, rfl⟩

/-- C4 counterexample: when both metadata providers fail (the primary
raised, the secondary produced no entries), `get_playlist_dual_source_complete`
does NOT fail — it returns an ordinary result whose canonical entry set is
empty, exactly the value the claim says must never be handed to the
caller. -/
theorem dual_source_both_fail_concrete :
    get_playlist_dual_source_complete none [] (fun _ => none) = [] := rfl

/-- C4 (amended): if both providers fail, reconciliation returns an empty
canonical entry set as a normal result (there is no SourceUnavailable-style
failure path), for every possible behaviour of the single-track enrichment
lookup. -/
theorem dual_source_both_fail_returns_empty
    (get_song : String → Option PEntry) :
    get_playlist_dual_source_complete none [] get_song = [] := rfl

/-- C3 counterexample: the catalog store's CHECK constraint rejects the
value `restricted`; a download whose availability pre-check reports an
auth-restricted video yields no result (`None`) rather than any
`restricted`-status record; and the drain thereupon marks the track
`failed`.  So no track's status ever becomes `restricted`, contrary to the
claim's six-value domain and its restricted transition. -/
theorem no_restricted_status_concrete :
    validStatus "restricted" = false
    ∧ perform_download_with_correct_metadata
        (some ⟨some "needs_auth", "", 0, ""⟩) (some ⟨"/f.mp3", "h", 1⟩)
        "v1" "T" "U" "A" none = none
    ∧ currentStatus
        (drain_step (fun _ => DrainOutcome.result none)
          ⟨[⟨"v1", "T", "U", 0, "", 1, "", [], "", 0, "pending"⟩],
           [], 0, [], []⟩ "v1").1.db "v1" = "failed" := by
  refine ⟨rfl, rfl, rfl⟩

/-- C3 (amended): every status the catalog store accepts is one of the five
values pending, processing, downloaded, failed, duplicate; an
auth-restricted availability makes the download provider return no result;
and the drain then marks the track `failed`, touching no file on disk. -/
theorem status_domain_and_restricted_failure :
    (∀ s : String, validStatus s = true ↔
        s ∈ (["pending", "processing", "downloaded", "failed",
              "duplicate"] : List String))
    ∧ (∀ (t : TechInfo) (f : Option FetchedFile) (vid ti up al : String)
        (yr : Option String),
        restricted_availabilities.contains (t.availability.getD "public")
          = true →
        perform_download_with_correct_metadata (some t) f vid ti up al yr
          = none)
    ∧ (∀ (provider : String → DrainOutcome) (s : DrainState) (vid : String),
        provider vid = .result none →
        (drain_step provider s vid).1.db
          = monitor_update_video_status s.db vid
              (VideoData.statusOnly "failed")
        ∧ (drain_step provider s vid).1.disk = s.disk) := by
  refine ⟨?_, ?_, ?_⟩
  · intro s
    simp only [validStatus, Bool.or_eq_true, beq_iff_eq, List.mem_cons,
      List.not_mem_nil, or_false]
    tauto
  · intro t f vid ti up al yr hav
    simp only [perform_download_with_correct_metadata]
    rw [if_pos hav]
  · intro provider s vid h
    constructor <;> simp [drain_step, h]

/-- Witness for `status_domain_and_restricted_failure` at concrete inputs. -/
theorem status_domain_and_restricted_failure_witness :
    (validStatus "downloaded" = true ↔
      "downloaded" ∈ (["pending", "processing", "downloaded", "failed",
        "duplicate"] : List String))
    ∧ perform_download_with_correct_metadata
        (some ⟨some "private", "", 0, ""⟩) none "v" "t" "u" "a" none = none
    ∧ ((drain_step (fun _ => DrainOutcome.result none)
          ⟨[], [], 0, [], []⟩ "v").1.db
        = monitor_update_video_status [] "v" (VideoData.statusOnly "failed")
       ∧ (drain_step (fun _ => DrainOutcome.result none)
          ⟨[], [], 0, [], []⟩ "v").1.disk = []) :=
  ⟨status_domain_and_restricted_failure.1 "downloaded",
   status_domain_and_restricted_failure.2.1 ⟨some "private", "", 0, ""⟩
     none "v" "t" "u" "a" none (by decide),
   status_domain_and_restricted_failure.2.2
     (fun _ => DrainOutcome.result none) ⟨[], [], 0, [], []⟩ "v" rfl⟩

/-- C5 counterexample: with one pending track and a succeeding provider, the
drain invokes the provider while the track's stored status is still
`pending` — the ghost trace records `("v1", "pending")`, never
`("v1", "processing")` — and the status then jumps straight to
`downloaded`.  No claim/re-validate step marks it `processing` first. -/
theorem drain_downloads_while_pending_concrete :
    (check_playlist_drain
        [⟨"v1", "T", "U", 0, "", 1, "", [], "", 0, "pending"⟩] ["/x"] 1
        (fun _ => DrainOutcome.result
          (some ⟨"v1", "T", "U", 0, "", "/new.mp3", "h", 7, "downloaded",
            []⟩))).1.trace
      = [("v1", "pending")]
    ∧ ("v1", "processing") ∉
        (check_playlist_drain
          [⟨"v1", "T", "U", 0, "", 1, "", [], "", 0, "pending"⟩] ["/x"] 1
          (fun _ => DrainOutcome.result
            (some ⟨"v1", "T", "U", 0, "", "/new.mp3", "h", 7, "downloaded",
              []⟩))).1.trace
    ∧ currentStatus
        (check_playlist_drain
          [⟨"v1", "T", "U", 0, "", 1, "", [], "", 0, "pending"⟩] ["/x"] 1
          (fun _ => DrainOutcome.result
            (some ⟨"v1", "T", "U", 0, "", "/new.mp3", "h", 7, "downloaded",
              []⟩))).1.db "v1" = "downloaded" := by
  refine ⟨rfl, by decide, rfl⟩

/-- C5 (amended): for every track picked up by the pending-drain routine
(assuming the store's unique-id invariant), the Download Provider is
invoked while the track's stored status is still `pending`; the routine
performs no prior re-validation-and-claim write, so no `processing` status
is observed at any invocation. -/
theorem drain_provider_invoked_on_pending (db : DB) (disk : List String)
    (pid : Nat) (provider : String → DrainOutcome)
    (hnd : (db.map (fun v => v.video_id)).Nodup) :
    ∀ e ∈ (check_playlist_drain db disk pid provider).1.trace,
      e.2 = "pending" := by
  intro e he
  rw [check_playlist_drain_fst] at he
  have hmain := drain_pending_trace_mem provider
    ((get_pending_videos db pid).map (fun v => v.video_id))
    ⟨db, disk, 0, [], []⟩
    (by
      have hsub : List.Sublist
          ((get_pending_videos db pid).map (fun v => v.video_id))
          (db.map (fun v => v.video_id)) :=
        List.Sublist.map _ (List.filter_sublist db)
      exact List.Nodup.sublist hsub hnd)
    (by
      intro vid hvid
      rcases List.mem_map.1 hvid with ⟨v, hv, rfl⟩
      have hvdb : v ∈ db := List.mem_of_mem_filter hv
      have hpv := List.of_mem_filter hv
      have hst : v.status = "pending" := by
        have h1 := hpv
        simp only [Bool.and_eq_true, beq_iff_eq] at h1
        exact h1.1
      show currentStatus db v.video_id = "pending"
      unfold currentStatus
      rw [find?_eq_of_mem_nodup db v hnd hvdb]
      exact hst)
    e he
  rcases hmain with h1 | h1
  · cases h1
  · exact h1

/-- Witness for `drain_provider_invoked_on_pending` on a concrete
unique-id catalog. -/
theorem drain_provider_invoked_on_pending_witness :
    (([⟨"v1", "T", "U", 0, "", 1, "", [], "", 0, "pending"⟩] :
        DB).map (fun v => v.video_id)).Nodup
    ∧ ∀ e ∈ (check_playlist_drain
        [⟨"v1", "T", "U", 0, "", 1, "", [], "", 0, "pending"⟩] [] 1
        (fun _ => DrainOutcome.result none)).1.trace,
      e.2 = "pending" :=
  ⟨by decide,
   drain_provider_invoked_on_pending
     [⟨"v1", "T", "U", 0, "", 1, "", [], "", 0, "pending"⟩] [] 1
     (fun _ => DrainOutcome.result none) (by decide)⟩

/-- C6 counterexample: a FAILED track `x` still carrying a stale hash `h`
counts as a dedup owner.  When pending track `v2` downloads a file with
hash `h`, the drain deletes the new file, marks `v2` duplicate, and points
its `file_path` at the failed track's path — contrary to the claim that
only a `downloaded`/`duplicate` row can be the owner (under which `v2`
would have ended `downloaded`). -/
theorem dedup_matches_failed_status_owner :
    (check_playlist_drain
        [⟨"x", "T", "U", 0, "", 1, "/old.mp3", [], "h", 5, "failed"⟩,
         ⟨"v2", "T2", "U2", 0, "", 1, "", [], "", 0, "pending"⟩]
        ["/new.mp3"] 1
        (fun vid => if vid == "v2" then
            DrainOutcome.result
              (some ⟨"v2", "T2", "U2", 0, "", "/new.mp3", "h", 7,
                "downloaded", []⟩)
          else DrainOutcome.result none)).1.db
      = [⟨"x", "T", "U", 0, "", 1, "/old.mp3", [], "h", 5, "failed"⟩,
         ⟨"v2", "T2", "U2", 0, "", 1, "/old.mp3", [], "h", 7, "duplicate"⟩]
    ∧ (check_playlist_drain
        [⟨"x", "T", "U", 0, "", 1, "/old.mp3", [], "h", 5, "failed"⟩,
         ⟨"v2", "T2", "U2", 0, "", 1, "", [], "", 0, "pending"⟩]
        ["/new.mp3"] 1
        (fun vid => if vid == "v2" then
            DrainOutcome.result
              (some ⟨"v2", "T2", "U2", 0, "", "/new.mp3", "h", 7,
                "downloaded", []⟩)
          else DrainOutcome.result none)).1.disk = [] := by
  refine ⟨rfl, rfl⟩

/-- C6 (amended): after a successful download the dedup step looks up ANY
row bearing the same non-empty content hash — its status is not consulted —
and when one is found the drain deletes the newly written file from disk,
sets the current track's status to duplicate, and sets its file_path to the
matched row's file_path. -/
theorem dedup_any_status_owner :
    (∀ (db : DB) (h : String) (v : Video), h ≠ "" → v ∈ db →
        v.file_hash = h → (get_file_by_hash db h).isSome = true)
    ∧ (∀ (provider : String → DrainOutcome) (s : DrainState) (vid : String)
        (r : DownloadResult) (owner : Video),
        provider vid = .result (some r) →
        (r.file_hash != "") = true →
        get_file_by_hash s.db r.file_hash = some owner →
        (drain_step provider s vid).1.db
          = monitor_update_video_status s.db vid
              (VideoData.ofResult
                { r with status := "duplicate",
                         file_path := owner.file_path })
        ∧ (drain_step provider s vid).1.disk
          = (if r.file_path != "" && s.disk.contains r.file_path then
               s.disk.filter (fun p => p != r.file_path)
             else s.disk)) := by
  constructor
  · intro db h v hne hv hh
    unfold get_file_by_hash
    rw [if_neg (by simpa using hne)]
    simp only [List.find?_isSome]
    exact ⟨v, hv, by simp [hh, hne]⟩
  · intro provider s vid r owner hprov hhash howner
    simp only [drain_step, hprov, hhash, if_true, howner]
    constructor <;> first | rfl | trivial

/-- Witness for `dedup_any_status_owner` at a concrete failed-status
owner. -/
theorem dedup_any_status_owner_witness :
    (get_file_by_hash
        [⟨"x", "T", "U", 0, "", 1, "/old.mp3", [], "h", 5, "failed"⟩]
        "h").isSome = true
    ∧ ((drain_step
          (fun _ => DrainOutcome.result
            (some ⟨"v2", "T2", "U2", 0, "", "/new.mp3", "h", 7,
              "downloaded", []⟩))
          ⟨[⟨"x", "T", "U", 0, "", 1, "/old.mp3", [], "h", 5, "failed"⟩],
           ["/new.mp3"], 0, [], []⟩ "v2").1.db
        = monitor_update_video_status
            [⟨"x", "T", "U", 0, "", 1, "/old.mp3", [], "h", 5, "failed"⟩]
            "v2"
            (VideoData.ofResult
              ⟨"v2", "T2", "U2", 0, "", "/old.mp3", "h", 7, "duplicate",
                []⟩)
       ∧ (drain_step
          (fun _ => DrainOutcome.result
            (some ⟨"v2", "T2", "U2", 0, "", "/new.mp3", "h", 7,
              "downloaded", []⟩))
          ⟨[⟨"x", "T", "U", 0, "", 1, "/old.mp3", [], "h", 5, "failed"⟩],
           ["/new.mp3"], 0, [], []⟩ "v2").1.disk
        = (if ("/new.mp3" != "")
              && ["/new.mp3"].contains ("/new.mp3" : String) then
             (["/new.mp3"] : List String).filter (fun p => p != "/new.mp3")
           else ["/new.mp3"])) :=
  ⟨dedup_any_status_owner.1
     [⟨"x", "T", "U", 0, "", 1, "/old.mp3", [], "h", 5, "failed"⟩] "h"
     ⟨"x", "T", "U", 0, "", 1, "/old.mp3", [], "h", 5, "failed"⟩
     (by decide) (List.mem_singleton.2 rfl) rfl,
   dedup_any_status_owner.2
     (fun _ => DrainOutcome.result
       (some ⟨"v2", "T2", "U2", 0, "", "/new.mp3", "h", 7, "downloaded",
         []⟩))
     ⟨[⟨"x", "T", "U", 0, "", 1, "/old.mp3", [], "h", 5, "failed"⟩],
      ["/new.mp3"], 0, [], []⟩ "v2"
     ⟨"v2", "T2", "U2", 0, "", "/new.mp3", "h", 7, "downloaded", []⟩
     ⟨"x", "T", "U", 0, "", 1, "/old.mp3", [], "h", 5, "failed"⟩
     rfl rfl rfl⟩

/-- C7 counterexample: a downloaded track whose file is missing on disk is
demoted to pending, but its content hash, file size and file path are all
left in place — the claim's "hash and size are cleared" does not happen. -/
theorem missing_file_demotion_keeps_hash_concrete :
    revalidate_on_disk
        [⟨"v", "T", "U", 0, "", 1, "/a.mp3", [], "h", 5, "downloaded"⟩]
        [] "v"
      = [⟨"v", "T", "U", 0, "", 1, "/a.mp3", [], "h", 5, "pending"⟩]
    ∧ (revalidate_on_disk
        [⟨"v", "T", "U", 0, "", 1, "/a.mp3", [], "h", 5, "downloaded"⟩]
        [] "v").map (fun v => v.file_hash) = ["h"] := by
  refine ⟨rfl, rfl⟩

/-- A status-only update leaves the file-related columns of every row
untouched. -/
theorem update_video_status_preserves_files (db : DB) (vid : String) :
    (update_video_status db vid "pending").map
        (fun v => (v.video_id, v.file_path, v.file_hash, v.file_size,
          v.metadata))
      = db.map (fun v => (v.video_id, v.file_path, v.file_hash, v.file_size,
          v.metadata)) := by
  unfold update_video_status
  rw [List.map_map]
  induction db with
  | nil => rfl
  | cons v rest ih =>
    simp only [List.map_cons, List.cons.injEq]
    refine ⟨?_, ih⟩
    by_cases hv : v.video_id = vid <;> simp [Function.comp, hv]

/-- C7 (amended): when a scan or startup check finds a `downloaded` or
`duplicate` row whose recorded non-empty file path is missing on disk, the
track's status is set to pending and every other column — video id, file
path, content hash, file size, metadata — is left unchanged. -/
theorem missing_file_demotes_keeps_fields (db : DB) (disk : List String)
    (vid : String) (row : Video)
    (hfind : db.find? (fun v => v.video_id == vid &&
        (v.status == "downloaded" || v.status == "duplicate")) = some row)
    (hpath : (row.file_path != "") = true)
    (hdisk : disk.contains row.file_path = false) :
    revalidate_on_disk db disk vid = update_video_status db vid "pending"
    ∧ (update_video_status db vid "pending").map
        (fun v => (v.video_id, v.file_path, v.file_hash, v.file_size,
          v.metadata))
      = db.map (fun v => (v.video_id, v.file_path, v.file_hash, v.file_size,
          v.metadata))
    ∧ { row with status := "pending" } ∈ update_video_status db vid "pending"
    := by
  refine ⟨?_, ?_, ?_⟩
  · unfold revalidate_on_disk
    rw [hfind]
    have hmem : (!(disk.contains row.file_path)) = true := by
      rw [hdisk]
      rfl
    show (if (row.file_path != "") = true then
        (if (!(disk.contains row.file_path)) = true then
          update_video_status db vid "pending" else db)
      else db) = update_video_status db vid "pending"
    rw [if_pos hpath, if_pos hmem]
  · exact update_video_status_preserves_files db vid
  · have hrowmem : row ∈ db := List.mem_of_find?_eq_some hfind
    have hpred := List.find?_some hfind
    have hvid : (row.video_id == vid) = true := by
      have h1 := hpred
      simp only [Bool.and_eq_true] at h1
      exact h1.1
    unfold update_video_status
    refine List.mem_map.2 ⟨row, hrowmem, ?_⟩
    simp [hvid]

/-- Witness for `missing_file_demotes_keeps_fields` at a concrete missing
file. -/
theorem missing_file_demotes_keeps_fields_witness :
    ([⟨"v", "T", "U", 0, "", 1, "/a.mp3", [], "h", 5, "downloaded"⟩] :
        DB).find? (fun v => v.video_id == "v" &&
          (v.status == "downloaded" || v.status == "duplicate"))
      = some ⟨"v", "T", "U", 0, "", 1, "/a.mp3", [], "h", 5, "downloaded"⟩
    ∧ (revalidate_on_disk
         [⟨"v", "T", "U", 0, "", 1, "/a.mp3", [], "h", 5, "downloaded"⟩]
         [] "v"
       = update_video_status
           [⟨"v", "T", "U", 0, "", 1, "/a.mp3", [], "h", 5, "downloaded"⟩]
           "v" "pending"
       ∧ (update_video_status
           [⟨"v", "T", "U", 0, "", 1, "/a.mp3", [], "h", 5, "downloaded"⟩]
           "v" "pending").map
          (fun v => (v.video_id, v.file_path, v.file_hash, v.file_size,
            v.metadata))
         = ([⟨"v", "T", "U", 0, "", 1, "/a.mp3", [], "h", 5,
             "downloaded"⟩] : DB).map
            (fun v => (v.video_id, v.file_path, v.file_hash, v.file_size,
              v.metadata))
       ∧ ({ (⟨"v", "T", "U", 0, "", 1, "/a.mp3", [], "h", 5,
             "downloaded"⟩ : Video) with status := "pending" }
          ∈ update_video_status
             [⟨"v", "T", "U", 0, "", 1, "/a.mp3", [], "h", 5,
               "downloaded"⟩] "v" "pending")) :=
  ⟨rfl,
   missing_file_demotes_keeps_fields
     [⟨"v", "T", "U", 0, "", 1, "/a.mp3", [], "h", 5, "downloaded"⟩]
     [] "v" ⟨"v", "T", "U", 0, "", 1, "/a.mp3", [], "h", 5, "downloaded"⟩
     rfl rfl rfl⟩

/-- C8 counterexample: a pending track stored with metadata key "artist"
loses it entirely when the drain's failure path runs
`_update_video_status(vid, \x7b'status': 'failed'\x7d)` — the update
replaces the whole metadata blob with the incoming dict's default, the
empty blob.  Metadata is therefore not additive under this track update. -/
theorem update_video_status_drops_metadata_concrete :
    (check_playlist_drain
        [⟨"v1", "T", "U", 0, "", 1, "", [("artist", "A")], "", 0,
          "pending"⟩] [] 1 (fun _ => DrainOutcome.result none)).1.db
      = [⟨"v1", "", "", 0, "", 1, "", [], "", 0, "failed"⟩]
    ∧ "artist" ∈
        ([("artist", "A")] : List (String × String)).map Prod.fst
    ∧ (check_playlist_drain
        [⟨"v1", "T", "U", 0, "", 1, "", [("artist", "A")], "", 0,
          "pending"⟩] [] 1
        (fun _ => DrainOutcome.result none)).1.db.map
          (fun v => v.metadata) = [[]] := by
  refine ⟨rfl, by decide, rfl⟩

/-- C8 (amended): metadata is additive only on the initial-check download
path, which reads the stored blob and merges the new fields over it (old
keys all survive); the generic `_update_video_status` write and the batch
upsert instead replace the stored blob wholesale with the incoming value. -/
theorem metadata_merge_semantics :
    (∀ (db : DB) (vid : String) (r : DownloadResult) (row : Video)
        (k : String),
        db.find? (fun v => v.video_id == vid) = some row →
        k ∈ row.metadata.map Prod.fst →
        k ∈ (merge_download_metadata db vid r).metadata.map Prod.fst)
    ∧ (∀ (db : DB) (vid : String) (d : VideoData),
        (monitor_update_video_status db vid d).map (fun v => v.metadata)
          = db.map (fun v =>
              if v.video_id == vid then d.metadata.getD [] else v.metadata))
    ∧ (∀ (db : DB) (new : Video),
        db.any (fun v => v.video_id == new.video_id) = true →
        (upsert_video db new).map (fun v => v.metadata)
          = db.map (fun v =>
              if v.video_id == new.video_id then new.metadata
              else v.metadata)) := by
  refine ⟨?_, ?_, ?_⟩
  · intro db vid r row k hfind hk
    unfold merge_download_metadata
    rw [hfind]
    exact dictMerge_keys_left row.metadata r.metadata k hk
  · intro db vid d
    unfold monitor_update_video_status
    rw [List.map_map]
    induction db with
    | nil => rfl
    | cons v rest ih =>
      simp only [List.map_cons, List.cons.injEq]
      refine ⟨?_, ih⟩
      by_cases hv : v.video_id = vid <;>
        simp [Function.comp, hv, apply_video_data]
  · intro db new hany
    unfold upsert_video
    rw [if_pos hany]
    rw [List.map_map]
    clear hany
    induction db with
    | nil => rfl
    | cons v rest ih =>
      simp only [List.map_cons, List.cons.injEq]
      refine ⟨?_, ih⟩
      by_cases hv : v.video_id = new.video_id <;> simp [Function.comp, hv]

/-- Witness for `metadata_merge_semantics` at concrete inputs. -/
theorem metadata_merge_semantics_witness :
    "artist" ∈
      (merge_download_metadata
        [⟨"v", "T", "U", 0, "", 1, "", [("artist", "A")], "", 0,
          "pending"⟩] "v"
        ⟨"v", "T", "U", 0, "", "/f.mp3", "h", 3, "downloaded",
          [("album", "B")]⟩).metadata.map Prod.fst
    ∧ (monitor_update_video_status
        [⟨"v", "T", "U", 0, "", 1, "", [("artist", "A")], "", 0,
          "pending"⟩] "v" (VideoData.statusOnly "failed")).map
          (fun v => v.metadata)
      = ([⟨"v", "T", "U", 0, "", 1, "", [("artist", "A")], "", 0,
          "pending"⟩] : DB).map (fun v =>
            if v.video_id == "v" then
              (VideoData.statusOnly "failed").metadata.getD []
            else v.metadata)
    ∧ (upsert_video
        [⟨"v", "T", "U", 0, "", 1, "", [("artist", "A")], "", 0,
          "pending"⟩]
        ⟨"v", "T2", "U2", 0, "", 1, "", [("album", "B")], "", 0,
          "pending"⟩).map (fun v => v.metadata)
      = ([⟨"v", "T", "U", 0, "", 1, "", [("artist", "A")], "", 0,
          "pending"⟩] : DB).map (fun v =>
            if v.video_id == "v" then [("album", "B")] else v.metadata) :=
  ⟨metadata_merge_semantics.1
     [⟨"v", "T", "U", 0, "", 1, "", [("artist", "A")], "", 0, "pending"⟩]
     "v"
     ⟨"v", "T", "U", 0, "", "/f.mp3", "h", 3, "downloaded",
       [("album", "B")]⟩
     ⟨"v", "T", "U", 0, "", 1, "", [("artist", "A")], "", 0, "pending"⟩
     "artist" rfl (by decide),
   metadata_merge_semantics.2.1
     [⟨"v", "T", "U", 0, "", 1, "", [("artist", "A")], "", 0, "pending"⟩]
     "v" (VideoData.statusOnly "failed"),
   metadata_merge_semantics.2.2
     [⟨"v", "T", "U", 0, "", 1, "", [("artist", "A")], "", 0, "pending"⟩]
     ⟨"v", "T2", "U2", 0, "", 1, "", [("album", "B")], "", 0, "pending"⟩
     rfl⟩

/-- C9 counterexample: two pending tracks; processing the first raises an
exception.  The drain stops there: the first track is NOT marked failed
(it stays pending), the second track is never processed (it also stays
pending), and the check reports 0 — contrary to the claim that the
exception is caught per-track, the track marked failed, and the loop
continued. -/
theorem drain_exception_aborts_batch_concrete :
    (check_playlist_drain
        [⟨"v1", "A", "", 0, "", 1, "", [], "", 0, "pending"⟩,
         ⟨"v2", "B", "", 0, "", 1, "", [], "", 0, "pending"⟩] [] 1
        (fun vid => if vid == "v1" then DrainOutcome.raised "boom"
          else DrainOutcome.result
            (some ⟨"v2", "B", "", 0, "", "/f.mp3", "h", 3, "downloaded",
              []⟩))).2 = 0
    ∧ (check_playlist_drain
        [⟨"v1", "A", "", 0, "", 1, "", [], "", 0, "pending"⟩,
         ⟨"v2", "B", "", 0, "", 1, "", [], "", 0, "pending"⟩] [] 1
        (fun vid => if vid == "v1" then DrainOutcome.raised "boom"
          else DrainOutcome.result
            (some ⟨"v2", "B", "", 0, "", "/f.mp3", "h", 3, "downloaded",
              []⟩))).1.db
      = [⟨"v1", "A", "", 0, "", 1, "", [], "", 0, "pending"⟩,
         ⟨"v2", "B", "", 0, "", 1, "", [], "", 0, "pending"⟩] := by
  refine ⟨rfl, rfl⟩

/-- C9 (amended): an exception escaping while one track is processed aborts
the remaining batch — the loop stops with that exception, the raising
track's row untouched (it is not marked failed); only the non-exceptional
`None` provider result is handled per-track, by marking that track failed
and continuing with the rest. -/
theorem drain_exception_and_none_semantics :
    (∀ (provider : String → DrainOutcome) (s : DrainState) (vid : String)
        (rest : List String) (msg : String),
        provider vid = .raised msg →
        drain_pending provider s (vid :: rest)
          = ({ s with trace := s.trace ++ [(vid, currentStatus s.db vid)] },
             some msg))
    ∧ (∀ (provider : String → DrainOutcome) (s : DrainState) (vid : String)
        (rest : List String),
        provider vid = .result none →
        drain_pending provider s (vid :: rest)
          = drain_pending provider
              { s with
                db := monitor_update_video_status s.db vid
                        (VideoData.statusOnly "failed")
                trace := s.trace ++ [(vid, currentStatus s.db vid)] }
              rest) := by
  constructor
  · intro provider s vid rest msg h
    simp [drain_pending, drain_step, h]
  · intro provider s vid rest h
    simp [drain_pending, drain_step, h]

/-- Witness for `drain_exception_and_none_semantics` at concrete
providers. -/
theorem drain_exception_and_none_semantics_witness :
    drain_pending (fun _ => DrainOutcome.raised "boom")
        ⟨[], [], 0, [], []⟩ ["v1", "v2"]
      = ({ (⟨[], [], 0, [], []⟩ : DrainState) with
           trace := ([] : List (String × String))
             ++ [("v1", currentStatus [] "v1")] }, some "boom")
    ∧ drain_pending (fun _ => DrainOutcome.result none)
        ⟨[], [], 0, [], []⟩ ["v1"]
      = drain_pending (fun _ => DrainOutcome.result none)
          { (⟨[], [], 0, [], []⟩ : DrainState) with
            db := monitor_update_video_status [] "v1"
                    (VideoData.statusOnly "failed")
            trace := ([] : List (String × String))
              ++ [("v1", currentStatus [] "v1")] } [] :=
  ⟨drain_exception_and_none_semantics.1
     (fun _ => DrainOutcome.raised "boom") ⟨[], [], 0, [], []⟩
     "v1" ["v2"] "boom" rfl,
   drain_exception_and_none_semantics.2
     (fun _ => DrainOutcome.result none) ⟨[], [], 0, [], []⟩
     "v1" [] rfl⟩

end YPD
